import Mathlib

/-!
Verification of `stable_diffusion_tf/autoencoderKl.py`.

The module declares five components: `PaddedConv2D` (explicit symmetric zero
padding followed by a valid convolution), `AttentionBlock`, `ResnetBlock`,
and the fixed `Encoder` / `Decoder` sequential pipelines.

Two embeddings are developed:

* a shape semantics: every layer is a function `Shape → Option Shape`,
  returning `none` exactly when the underlying framework would reject the
  input (kernel larger than the padded input, channel count not divisible
  by the 32 normalization groups, mismatched shapes in a residual add);
* a value semantics over exact real arithmetic: tensors are total index
  functions `ℕ → ℕ → ℕ → ℕ → ℝ` (batch, row, column, channel); every
  operation reads only indices inside the bounds it is given, and indices
  outside a layer's output shape are mapped to `0`.
-/

namespace AutoencoderKL

/-- Tensor shape `(batch, height, width, channels)`, channels-last as in the
source module. -/
structure Shape where
  B : ℕ
  H : ℕ
  W : ℕ
  C : ℕ
deriving DecidableEq

/-- Shape of `keras.layers.ZeroPadding2D((p, p))`: each spatial edge grows by
`p` pixels. -/
def zeroPadding2dShape (padding : ℕ) (s : Shape) : Shape :=
  ⟨s.B, s.H + 2 * padding, s.W + 2 * padding, s.C⟩

/-- Shape of `keras.layers.Conv2D(channels, kernel_size, strides)` with valid
padding: each spatial dim becomes `(d - kernel) / stride + 1`, defined only
when the kernel fits, i.e. `kernel ≤ d`. -/
def conv2dShape (channels kernelSize stride : ℕ) (s : Shape) : Option Shape :=
  if kernelSize ≤ s.H ∧ kernelSize ≤ s.W then
    some ⟨s.B, (s.H - kernelSize) / stride + 1, (s.W - kernelSize) / stride + 1, channels⟩
  else none

/-- Shape of `PaddedConv2D.call` (lines 22-24): zero padding, then the valid
convolution. -/
def paddedConv2dShape (channels kernelSize padding stride : ℕ) (s : Shape) : Option Shape :=
  conv2dShape channels kernelSize stride (zeroPadding2dShape padding s)

/-- Shape of `tfa.layers.GroupNormalization` with the default 32 groups: the
shape is preserved, and the layer rejects a channel count not divisible by the
number of groups. -/
def groupNormShape (s : Shape) : Option Shape :=
  if s.C % 32 = 0 then some s else none

/-- Shape of `keras.layers.Activation("swish")` / `keras.activations.swish`:
pointwise, shape preserved. -/
def swishActShape (s : Shape) : Option Shape := some s

/-- Shape of `keras.layers.UpSampling2D(size=(2, 2))`: both spatial dims are
doubled. -/
def upSampling2dShape (s : Shape) : Option Shape :=
  some ⟨s.B, 2 * s.H, 2 * s.W, s.C⟩

/-- Shape of an elementwise residual addition `x + y`: the operands must have
the same shape (all uses in the module add tensors of identical shape). -/
def addShape (a b : Shape) : Option Shape :=
  if a = b then some a else none

/-- Shape of `ResnetBlock.call` (lines 71-74): norm → swish → 3×3 conv
(padding 1) → norm → swish → 3×3 conv (padding 1), added to the shortcut,
which is a 1×1 convolution when `in_channels != out_channels` (line 65-69)
and the identity otherwise. -/
def resnetBlockShape (inChannels outChannels : ℕ) (s : Shape) : Option Shape :=
  (groupNormShape s).bind fun n1 =>
  (paddedConv2dShape outChannels 3 1 1 n1).bind fun h1 =>
  (groupNormShape h1).bind fun n2 =>
  (paddedConv2dShape outChannels 3 1 1 n2).bind fun h2 =>
  (if inChannels ≠ outChannels then paddedConv2dShape outChannels 1 0 1 s else some s).bind
    fun sc =>
  addShape sc h2

/-- Shape of `AttentionBlock.call` (lines 35-55): group norm, three 1×1
query/key/value projections of `n`, attention (which returns the shape of
`q`), the 1×1 projection out, and the residual add with the original input. -/
def attentionBlockShape (channels : ℕ) (s : Shape) : Option Shape :=
  (groupNormShape s).bind fun n =>
  (paddedConv2dShape channels 1 0 1 n).bind fun q =>
  (paddedConv2dShape channels 1 0 1 n).bind fun _k =>
  (paddedConv2dShape channels 1 0 1 n).bind fun _v =>
  (paddedConv2dShape channels 1 0 1 q).bind fun pr =>
  addShape s pr

/-- Shape of the Encoder's final `Lambda(lambda x: x[..., :4] * 0.18215)`
(line 141): keep (at most) the first 4 channels, scale by a constant. -/
def encSliceScaleShape (s : Shape) : Option Shape :=
  some ⟨s.B, s.H, s.W, min 4 s.C⟩

/-- Shape of the Decoder's first `Lambda(lambda x: 1 / 0.18215 * x)`
(line 81): pointwise scaling, shape preserved. -/
def decRescaleShape (s : Shape) : Option Shape := some s

/-- Shape of the Decoder's second layer,
`PaddedConv2D(4, 1, name="PostQuantConvolutionalIn")` (line 82). -/
def decoderPostQuantConvShape (s : Shape) : Option Shape :=
  paddedConv2dShape 4 1 0 1 s

/-- Shape of the `Encoder` sequential pipeline (lines 112-143), layer by
layer in source order. -/
def encoderShape (s : Shape) : Option Shape :=
  (paddedConv2dShape 128 3 1 1 s).bind
    (resnetBlockShape 128 128) |>.bind
    (resnetBlockShape 128 128) |>.bind
    (paddedConv2dShape 128 3 1 2) |>.bind
    (resnetBlockShape 128 256) |>.bind
    (resnetBlockShape 256 256) |>.bind
    (paddedConv2dShape 256 3 1 2) |>.bind
    (resnetBlockShape 256 512) |>.bind
    (resnetBlockShape 512 512) |>.bind
    (paddedConv2dShape 512 3 1 2) |>.bind
    (resnetBlockShape 512 512) |>.bind
    (resnetBlockShape 512 512) |>.bind
    (resnetBlockShape 512 512) |>.bind
    (attentionBlockShape 512) |>.bind
    (resnetBlockShape 512 512) |>.bind
    groupNormShape |>.bind
    swishActShape |>.bind
    (paddedConv2dShape 8 3 1 1) |>.bind
    (paddedConv2dShape 8 1 0 1) |>.bind
    encSliceScaleShape

/-- Shape of the `Decoder` sequential pipeline (lines 77-109), layer by layer
in source order. -/
def decoderShape (s : Shape) : Option Shape :=
  (decRescaleShape s).bind
    decoderPostQuantConvShape |>.bind
    (paddedConv2dShape 512 3 1 1) |>.bind
    (resnetBlockShape 512 512) |>.bind
    (attentionBlockShape 512) |>.bind
    (resnetBlockShape 512 512) |>.bind
    (resnetBlockShape 512 512) |>.bind
    (resnetBlockShape 512 512) |>.bind
    (resnetBlockShape 512 512) |>.bind
    upSampling2dShape |>.bind
    (paddedConv2dShape 512 3 1 1) |>.bind
    (resnetBlockShape 512 512) |>.bind
    (resnetBlockShape 512 512) |>.bind
    (resnetBlockShape 512 512) |>.bind
    upSampling2dShape |>.bind
    (paddedConv2dShape 512 3 1 1) |>.bind
    (resnetBlockShape 512 256) |>.bind
    (resnetBlockShape 256 256) |>.bind
    (resnetBlockShape 256 256) |>.bind
    upSampling2dShape |>.bind
    (paddedConv2dShape 256 3 1 1) |>.bind
    (resnetBlockShape 256 128) |>.bind
    (resnetBlockShape 128 128) |>.bind
    (resnetBlockShape 128 128) |>.bind
    groupNormShape |>.bind
    swishActShape |>.bind
    (paddedConv2dShape 3 3 1 1)

/-- The round trip `Decoder(Encoder(x))`, at the level of shapes. -/
def roundTripShape (s : Shape) : Option Shape :=
  (encoderShape s).bind decoderShape

/-- A shape transformation preserves the leading batch dimension. -/
def PreservesB (f : Shape → Option Shape) : Prop :=
  ∀ s t : Shape, f s = some t → t.B = s.B

/-! Value-level model, over exact real arithmetic. -/

/-- A value-level tensor: a total index function (batch, row, column,
channel). Operations read only the indices inside the shape bounds they are
given, and write `0` outside their output shape. -/
def VTensor : Type := ℕ → ℕ → ℕ → ℕ → ℝ

/-- Learned parameters of a `keras.layers.Conv2D`: a kernel indexed by
(kernel row, kernel column, input channel, output channel) and a bias per
output channel (`use_bias` defaults to `True`). -/
structure ConvP where
  w : ℕ → ℕ → ℕ → ℕ → ℝ
  b : ℕ → ℝ

/-- Learned parameters of a `tfa.layers.GroupNormalization`: per-channel
scale `gamma` and offset `beta`. -/
structure GNP where
  gamma : ℕ → ℝ
  beta : ℕ → ℝ

/-- Learned parameters of `AttentionBlock` (lines 27-33): the normalization
and the four 1×1 convolutions. -/
structure AttnP where
  norm : GNP
  q : ConvP
  k : ConvP
  v : ConvP
  projOut : ConvP

/-- Learned state of `ResnetBlock` (lines 59-69): two normalizations, two
3×3 convolutions, and the shortcut, which is `some` 1×1 convolution or
`none` for the identity function `lambda x: x`. -/
structure ResnetP where
  norm1 : GNP
  conv1 : ConvP
  norm2 : GNP
  conv2 : ConvP
  ninShortcut : Option ConvP

/-- `ResnetBlock.__init__` (lines 59-69): the shortcut is a 1×1 convolution
exactly when `in_channels != out_channels`, decided once from the declared
channel counts. -/
def mkResnetBlock (inChannels outChannels : ℕ) (n1 : GNP) (c1 : ConvP) (n2 : GNP) (c2 : ConvP)
    (sc : ConvP) : ResnetP :=
  ⟨n1, c1, n2, c2, if inChannels ≠ outChannels then some sc else none⟩

/-- The `epsilon = 1e-5` of every normalization layer in the module,
modelled as the exact rational it denotes. -/
noncomputable def gnEps : ℝ := 1 / 100000

/-- Read pixel `(u, v)` of a `(H, W)` image zero-padded by `padding` on every
spatial edge. -/
def padRead (padding H W : ℕ) (x : VTensor) (bi u v c : ℕ) : ℝ :=
  if padding ≤ u ∧ u < padding + H ∧ padding ≤ v ∧ v < padding + W then
    x bi (u - padding) (v - padding) c
  else 0

/-- Value of `PaddedConv2D.call`: zero-pad by `padding`, then a valid
convolution of the given kernel size and stride over `cin` input channels of
a `(H, W)` input. -/
noncomputable def paddedConv2dV (kernelSize padding stride cin H W : ℕ) (cp : ConvP)
    (x : VTensor) : VTensor :=
  fun bi i j o =>
    cp.b o +
      ∑ di ∈ Finset.range kernelSize, ∑ dj ∈ Finset.range kernelSize,
        ∑ c ∈ Finset.range cin,
          cp.w di dj c o * padRead padding H W x bi (i * stride + di) (j * stride + dj) c

/-- Mean over one normalization group: group `grp` covers channels
`grp * (C / G), …, grp * (C / G) + C / G - 1` together with all spatial
positions of one batch element. -/
noncomputable def gnMean (G H W C : ℕ) (x : VTensor) (bi grp : ℕ) : ℝ :=
  (∑ h ∈ Finset.range H, ∑ w2 ∈ Finset.range W, ∑ j ∈ Finset.range (C / G),
      x bi h w2 (grp * (C / G) + j)) / ((H * W * (C / G) : ℕ) : ℝ)

/-- Variance over one normalization group. -/
noncomputable def gnVar (G H W C : ℕ) (x : VTensor) (bi grp : ℕ) : ℝ :=
  (∑ h ∈ Finset.range H, ∑ w2 ∈ Finset.range W, ∑ j ∈ Finset.range (C / G),
      (x bi h w2 (grp * (C / G) + j) - gnMean G H W C x bi grp) ^ 2) /
    ((H * W * (C / G) : ℕ) : ℝ)

/-- Value of `tfa.layers.GroupNormalization` with `G` groups on a `(H, W, C)`
feature map: standardize within the group of the channel, then apply the
per-channel affine parameters. -/
noncomputable def groupNormV (G H W C : ℕ) (eps : ℝ) (p : GNP) (x : VTensor) : VTensor :=
  fun bi h w2 c =>
    p.gamma c * ((x bi h w2 c - gnMean G H W C x bi (c / (C / G))) /
      Real.sqrt (gnVar G H W C x bi (c / (C / G)) + eps)) + p.beta c

/-- The sigmoid function. -/
noncomputable def sigmoidV (t : ℝ) : ℝ := 1 / (1 + Real.exp (-t))

/-- Value of `keras.activations.swish`: `x * sigmoid x`, pointwise. -/
noncomputable def swishV (x : VTensor) : VTensor :=
  fun bi h w2 c => x bi h w2 c * sigmoidV (x bi h w2 c)

/-- Line 36: `h_ = self.norm(x)`, the default 32 groups. -/
noncomputable def attnNormed (H W C : ℕ) (p : AttnP) (x : VTensor) : VTensor :=
  groupNormV 32 H W C gnEps p.norm x

/-- Line 37: `q = self.q(h_)`, a 1×1 convolution of the normalized input. -/
noncomputable def attnQ (H W C : ℕ) (p : AttnP) (x : VTensor) : VTensor :=
  paddedConv2dV 1 0 1 C H W p.q (attnNormed H W C p x)

/-- Line 37: `k = self.k(h_)`. -/
noncomputable def attnK (H W C : ℕ) (p : AttnP) (x : VTensor) : VTensor :=
  paddedConv2dV 1 0 1 C H W p.k (attnNormed H W C p x)

/-- Line 37: `v = self.v(h_)`. -/
noncomputable def attnVproj (H W C : ℕ) (p : AttnP) (x : VTensor) : VTensor :=
  paddedConv2dV 1 0 1 C H W p.v (attnNormed H W C p x)

/-- Line 41: `q = tf.reshape(q, (-1, h * w, c))`; flattened position `pos`
is spatial position `(pos / W, pos % W)`. -/
noncomputable def attnQflat (H W C : ℕ) (p : AttnP) (x : VTensor) (bi pos c : ℕ) : ℝ :=
  attnQ H W C p x bi (pos / W) (pos % W) c

/-- Lines 42-43: permute `k` to (batch, channel, row, column) and reshape to
(batch, channel, position). -/
noncomputable def attnKflat (H W C : ℕ) (p : AttnP) (x : VTensor) (bi c pos : ℕ) : ℝ :=
  attnK H W C p x bi (pos / W) (pos % W) c

/-- Lines 49-50: the same flattening for `v`. -/
noncomputable def attnVflat (H W C : ℕ) (p : AttnP) (x : VTensor) (bi c pos : ℕ) : ℝ :=
  attnVproj H W C p x bi (pos / W) (pos % W) c

/-- Lines 44-45: `w_ = q @ k; w_ = w_ * (c ** (-0.5))` — the batched matrix
product of the flattened query and key, scaled by `C ^ (-1/2)`. -/
noncomputable def attnRawScores (H W C : ℕ) (p : AttnP) (x : VTensor) (bi i j : ℕ) : ℝ :=
  (∑ c ∈ Finset.range C, attnQflat H W C p x bi i c * attnKflat H W C p x bi c j) *
    (C : ℝ) ^ (-(1 / 2) : ℝ)

/-- Line 46: `w_ = keras.activations.softmax(w_)`, along the last axis of the
`(batch, H*W, H*W)` score tensor. -/
noncomputable def attnScores (H W C : ℕ) (p : AttnP) (x : VTensor) (bi i j : ℕ) : ℝ :=
  Real.exp (attnRawScores H W C p x bi i j) /
    ∑ j2 ∈ Finset.range (H * W), Real.exp (attnRawScores H W C p x bi i j2)

/-- Lines 51-52: `h_ = v @ w_ᵗ` — entry `(channel c, query position i)` is the
softmax-weighted sum of the flattened values over all `H * W` key positions. -/
noncomputable def attnGather (H W C : ℕ) (p : AttnP) (x : VTensor) (bi c i : ℕ) : ℝ :=
  ∑ j ∈ Finset.range (H * W), attnVflat H W C p x bi c j * attnScores H W C p x bi i j

/-- Lines 53-54: permute back to (batch, position, channel) and reshape to
(batch, row, column, channel). -/
noncomputable def attnSpatial (H W C : ℕ) (p : AttnP) (x : VTensor) : VTensor :=
  fun bi y x2 c => attnGather H W C p x bi c (y * W + x2)

/-- Line 55: `return x + self.proj_out(h_)` — value of `AttentionBlock.call`
on a `(H, W, C)` input. -/
noncomputable def attentionBlockV (H W C : ℕ) (p : AttnP) (x : VTensor) : VTensor :=
  fun bi y x2 c =>
    x bi y x2 c + paddedConv2dV 1 0 1 C H W p.projOut (attnSpatial H W C p x) bi y x2 c

/-- Apply the stored shortcut: the identity function when `none` (line 68),
the 1×1 convolution when `some` (line 66). -/
noncomputable def applyNinShortcut (cin H W : ℕ) (o : Option ConvP) (x : VTensor) : VTensor :=
  match o with
  | none => x
  | some cp => paddedConv2dV 1 0 1 cin H W cp x

/-- Lines 72-73: the learned branch of `ResnetBlock.call` — norm, swish,
3×3 convolution (padding 1), twice. -/
noncomputable def resnetBranchV (cin cout H W : ℕ) (p : ResnetP) (x : VTensor) : VTensor :=
  paddedConv2dV 3 1 1 cout H W p.conv2
    (swishV (groupNormV 32 H W cout gnEps p.norm2
      (paddedConv2dV 3 1 1 cin H W p.conv1
        (swishV (groupNormV 32 H W cin gnEps p.norm1 x)))))

/-- Line 74: `return self.nin_shortcut(x) + h` — value of `ResnetBlock.call`. -/
noncomputable def resnetBlockV (cin cout H W : ℕ) (p : ResnetP) (x : VTensor) : VTensor :=
  fun bi i j c =>
    applyNinShortcut cin H W p.ninShortcut x bi i j c + resnetBranchV cin cout H W p x bi i j c

/-- Value of the Encoder's final layer,
`Lambda(lambda x: x[..., :4] * 0.18215)` (line 141): the sliced result has
4 channels, so indices past them read `0`. -/
noncomputable def encoderOutLambdaV (x : VTensor) : VTensor :=
  fun bi h w2 c => (if c < 4 then x bi h w2 c else 0) * 0.18215

/-- Value of the Decoder's first layer, `Lambda(lambda x: 1 / 0.18215 * x)`
(line 81). -/
noncomputable def decoderInLambdaV (x : VTensor) : VTensor :=
  fun bi h w2 c => 1 / 0.18215 * x bi h w2 c

/-- The plain first-four-channels slice `x[..., :4]`, used to state the
round-trip law of the two Lambda constants. -/
noncomputable def sliceFirst4V (x : VTensor) : VTensor :=
  fun bi h w2 c => if c < 4 then x bi h w2 c else 0

/-- Learned parameters of the whole `Encoder` pipeline, one field per layer
with weights, in source order (lines 117-140). -/
structure EncoderP where
  convIn : ConvP
  rb1 : ResnetP
  rb2 : ResnetP
  down1 : ConvP
  rb3 : ResnetP
  rb4 : ResnetP
  down2 : ConvP
  rb5 : ResnetP
  rb6 : ResnetP
  down3 : ConvP
  rb7 : ResnetP
  rb8 : ResnetP
  rb9 : ResnetP
  attn1 : AttnP
  rb10 : ResnetP
  normOut : GNP
  convOut1 : ConvP
  convOut2 : ConvP

/-- Value of the `Encoder` pipeline (lines 112-143) on a `(H, W, 3)` input:
the layers of the sequential model applied in order, spatial dimensions
shrinking at each stride-2 convolution. -/
noncomputable def encoderV (H W : ℕ) (P : EncoderP) (x : VTensor) : VTensor :=
  let h2 := (H + 2 * 1 - 3) / 2 + 1
  let w2 := (W + 2 * 1 - 3) / 2 + 1
  let h4 := (h2 + 2 * 1 - 3) / 2 + 1
  let w4 := (w2 + 2 * 1 - 3) / 2 + 1
  let h8 := (h4 + 2 * 1 - 3) / 2 + 1
  let w8 := (w4 + 2 * 1 - 3) / 2 + 1
  let t1 := paddedConv2dV 3 1 1 3 H W P.convIn x
  let t2 := resnetBlockV 128 128 H W P.rb1 t1
  let t3 := resnetBlockV 128 128 H W P.rb2 t2
  let t4 := paddedConv2dV 3 1 2 128 H W P.down1 t3
  let t5 := resnetBlockV 128 256 h2 w2 P.rb3 t4
  let t6 := resnetBlockV 256 256 h2 w2 P.rb4 t5
  let t7 := paddedConv2dV 3 1 2 256 h2 w2 P.down2 t6
  let t8 := resnetBlockV 256 512 h4 w4 P.rb5 t7
  let t9 := resnetBlockV 512 512 h4 w4 P.rb6 t8
  let t10 := paddedConv2dV 3 1 2 512 h4 w4 P.down3 t9
  let t11 := resnetBlockV 512 512 h8 w8 P.rb7 t10
  let t12 := resnetBlockV 512 512 h8 w8 P.rb8 t11
  let t13 := resnetBlockV 512 512 h8 w8 P.rb9 t12
  let t14 := attentionBlockV h8 w8 512 P.attn1 t13
  let t15 := resnetBlockV 512 512 h8 w8 P.rb10 t14
  let t16 := swishV (groupNormV 32 h8 w8 512 gnEps P.normOut t15)
  let t17 := paddedConv2dV 3 1 1 512 h8 w8 P.convOut1 t16
  let t18 := paddedConv2dV 1 0 1 8 h8 w8 P.convOut2 t17
  encoderOutLambdaV t18

/-- All-zero convolution parameters, used to instantiate theorems at a
concrete input. -/
noncomputable def zeroConvP : ConvP := ⟨fun _ _ _ _ => 0, fun _ => 0⟩

/-- All-zero normalization parameters. -/
noncomputable def zeroGNP : GNP := ⟨fun _ => 0, fun _ => 0⟩

/-- All-zero attention parameters. -/
noncomputable def zeroAttnP : AttnP := ⟨zeroGNP, zeroConvP, zeroConvP, zeroConvP, zeroConvP⟩

/-- The zero tensor. -/
noncomputable def zeroVT : VTensor := fun _ _ _ _ => 0

/-- All-zero resnet parameters with the identity shortcut. -/
noncomputable def zeroResnetP : ResnetP := ⟨zeroGNP, zeroConvP, zeroGNP, zeroConvP, none⟩

/-- All-zero encoder parameters. -/
noncomputable def zeroEncoderP : EncoderP :=
  ⟨zeroConvP, zeroResnetP, zeroResnetP, zeroConvP, zeroResnetP, zeroResnetP, zeroConvP,
    zeroResnetP, zeroResnetP, zeroConvP, zeroResnetP, zeroResnetP, zeroResnetP, zeroAttnP,
    zeroResnetP, zeroGNP, zeroConvP, zeroConvP⟩

/-! Helper lemmas: evaluating the shape semantics. -/

theorem some_bind {α β : Type} (a : α) (f : α → Option β) : (some a).bind f = f a := rfl

theorem paddedConv2dShape_eval (ch k p st B H W C : ℕ) (hH : k ≤ H + 2 * p)
    (hW : k ≤ W + 2 * p) :
    paddedConv2dShape ch k p st ⟨B, H, W, C⟩ =
      some ⟨B, (H + 2 * p - k) / st + 1, (W + 2 * p - k) / st + 1, ch⟩ := by
  simp [paddedConv2dShape, conv2dShape, zeroPadding2dShape, hH, hW]

theorem conv3x3same_eval (ch B H W C : ℕ) (hH : 1 ≤ H) (hW : 1 ≤ W) :
    paddedConv2dShape ch 3 1 1 ⟨B, H, W, C⟩ = some ⟨B, H, W, ch⟩ := by
  rw [paddedConv2dShape_eval ch 3 1 1 B H W C (by omega) (by omega)]
  simp only [Option.some.injEq, Shape.mk.injEq, true_and, and_true]
  omega

theorem conv1x1_eval (ch B H W C : ℕ) (hH : 1 ≤ H) (hW : 1 ≤ W) :
    paddedConv2dShape ch 1 0 1 ⟨B, H, W, C⟩ = some ⟨B, H, W, ch⟩ := by
  rw [paddedConv2dShape_eval ch 1 0 1 B H W C (by omega) (by omega)]
  simp only [Option.some.injEq, Shape.mk.injEq, true_and, and_true]
  omega

theorem conv3x3down_eval (ch B H W C h w : ℕ) (hH : H = 2 * h) (hW : W = 2 * w)
    (h1 : 1 ≤ h) (w1 : 1 ≤ w) :
    paddedConv2dShape ch 3 1 2 ⟨B, H, W, C⟩ = some ⟨B, h, w, ch⟩ := by
  subst hH hW
  rw [paddedConv2dShape_eval ch 3 1 2 B (2 * h) (2 * w) C (by omega) (by omega)]
  simp only [Option.some.injEq, Shape.mk.injEq, true_and, and_true]
  omega

theorem groupNormShape_eval (B H W C : ℕ) (h : C % 32 = 0) :
    groupNormShape ⟨B, H, W, C⟩ = some ⟨B, H, W, C⟩ := by
  simp [groupNormShape, h]

theorem resnetBlockShape_eval (cin cout B H W : ℕ) (h1 : cin % 32 = 0) (h2 : cout % 32 = 0)
    (hH : 1 ≤ H) (hW : 1 ≤ W) :
    resnetBlockShape cin cout ⟨B, H, W, cin⟩ = some ⟨B, H, W, cout⟩ := by
  simp only [resnetBlockShape,
    groupNormShape_eval B H W cin h1, some_bind,
    conv3x3same_eval cout B H W cin hH hW,
    groupNormShape_eval B H W cout h2,
    conv3x3same_eval cout B H W cout hH hW]
  by_cases hc : cin = cout
  · subst hc
    simp [addShape]
  · rw [if_pos hc, conv1x1_eval cout B H W cin hH hW, some_bind]
    simp [addShape]

theorem attentionBlockShape_eval (ch B H W : ℕ) (h : ch % 32 = 0) (hH : 1 ≤ H) (hW : 1 ≤ W) :
    attentionBlockShape ch ⟨B, H, W, ch⟩ = some ⟨B, H, W, ch⟩ := by
  simp only [attentionBlockShape,
    groupNormShape_eval B H W ch h, some_bind,
    conv1x1_eval ch B H W ch hH hW]
  simp [addShape]

theorem encoderShape_eval (B a b : ℕ) (ha : 1 ≤ a) (hb : 1 ≤ b) :
    encoderShape ⟨B, 8 * a, 8 * b, 3⟩ = some ⟨B, a, b, 4⟩ := by
  simp only [encoderShape, some_bind,
    conv3x3same_eval 128 B (8 * a) (8 * b) 3 (by omega) (by omega),
    resnetBlockShape_eval 128 128 B (8 * a) (8 * b) (by omega) (by omega) (by omega) (by omega),
    conv3x3down_eval 128 B (8 * a) (8 * b) 128 (4 * a) (4 * b) (by ring) (by ring) (by omega)
      (by omega),
    resnetBlockShape_eval 128 256 B (4 * a) (4 * b) (by omega) (by omega) (by omega) (by omega),
    resnetBlockShape_eval 256 256 B (4 * a) (4 * b) (by omega) (by omega) (by omega) (by omega),
    conv3x3down_eval 256 B (4 * a) (4 * b) 256 (2 * a) (2 * b) (by ring) (by ring) (by omega)
      (by omega),
    resnetBlockShape_eval 256 512 B (2 * a) (2 * b) (by omega) (by omega) (by omega) (by omega),
    resnetBlockShape_eval 512 512 B (2 * a) (2 * b) (by omega) (by omega) (by omega) (by omega),
    conv3x3down_eval 512 B (2 * a) (2 * b) 512 a b (by ring) (by ring) ha hb,
    resnetBlockShape_eval 512 512 B a b (by omega) (by omega) ha hb,
    attentionBlockShape_eval 512 B a b (by omega) ha hb,
    groupNormShape_eval B a b 512 (by omega),
    swishActShape,
    conv3x3same_eval 8 B a b 512 ha hb,
    conv1x1_eval 8 B a b 8 ha hb,
    encSliceScaleShape]
  norm_num

theorem decoderShape_eval (B h w : ℕ) (hh : 1 ≤ h) (hw : 1 ≤ w) :
    decoderShape ⟨B, h, w, 4⟩ = some ⟨B, 8 * h, 8 * w, 3⟩ := by
  simp only [decoderShape, decRescaleShape, some_bind, decoderPostQuantConvShape,
    conv1x1_eval 4 B h w 4 hh hw,
    conv3x3same_eval 512 B h w 4 hh hw,
    resnetBlockShape_eval 512 512 B h w (by omega) (by omega) hh hw,
    attentionBlockShape_eval 512 B h w (by omega) hh hw,
    upSampling2dShape,
    conv3x3same_eval 512 B (2 * h) (2 * w) 512 (by omega) (by omega),
    resnetBlockShape_eval 512 512 B (2 * h) (2 * w) (by omega) (by omega) (by omega) (by omega),
    conv3x3same_eval 512 B (2 * (2 * h)) (2 * (2 * w)) 512 (by omega) (by omega),
    resnetBlockShape_eval 512 256 B (2 * (2 * h)) (2 * (2 * w)) (by omega) (by omega) (by omega)
      (by omega),
    resnetBlockShape_eval 256 256 B (2 * (2 * h)) (2 * (2 * w)) (by omega) (by omega) (by omega)
      (by omega),
    conv3x3same_eval 256 B (2 * (2 * (2 * h))) (2 * (2 * (2 * w))) 256 (by omega) (by omega),
    resnetBlockShape_eval 256 128 B (2 * (2 * (2 * h))) (2 * (2 * (2 * w))) (by omega) (by omega)
      (by omega) (by omega),
    resnetBlockShape_eval 128 128 B (2 * (2 * (2 * h))) (2 * (2 * (2 * w))) (by omega) (by omega)
      (by omega) (by omega),
    groupNormShape_eval B (2 * (2 * (2 * h))) (2 * (2 * (2 * w))) 128 (by omega),
    swishActShape,
    conv3x3same_eval 3 B (2 * (2 * (2 * h))) (2 * (2 * (2 * w))) 128 (by omega) (by omega)]
  simp only [Option.some.injEq, Shape.mk.injEq, true_and, and_true]
  omega

/-! Helper lemmas: what the attention block's output shape must be, and batch
preservation of every layer. -/

theorem attentionBlockShape_out (ch : ℕ) (s t : Shape)
    (h : attentionBlockShape ch s = some t) : t = s := by
  simp only [attentionBlockShape, Option.bind_eq_some] at h
  obtain ⟨n, hn, q, hq, _k, hk, _v, hv, pr, hpr, hadd⟩ := h
  unfold addShape at hadd
  split at hadd
  · exact (Option.some.inj hadd).symm
  · exact absurd hadd (by simp)

theorem paddedConv2d_preservesB (ch k p st : ℕ) : PreservesB (paddedConv2dShape ch k p st) := by
  intro s t h
  unfold paddedConv2dShape conv2dShape at h
  split at h
  · cases h
    rfl
  · exact absurd h (by simp)

theorem groupNorm_preservesB : PreservesB groupNormShape := by
  intro s t h
  unfold groupNormShape at h
  split at h
  · cases h
    rfl
  · exact absurd h (by simp)

theorem swishAct_preservesB : PreservesB swishActShape := by
  intro s t h
  cases Option.some.inj h
  rfl

theorem upSampling_preservesB : PreservesB upSampling2dShape := by
  intro s t h
  cases Option.some.inj h
  rfl

theorem decRescale_preservesB : PreservesB decRescaleShape := by
  intro s t h
  cases Option.some.inj h
  rfl

theorem encSlice_preservesB : PreservesB encSliceScaleShape := by
  intro s t h
  cases Option.some.inj h
  rfl

theorem attention_preservesB (ch : ℕ) : PreservesB (attentionBlockShape ch) := by
  intro s t h
  rw [attentionBlockShape_out ch s t h]

theorem resnet_preservesB (cin cout : ℕ) : PreservesB (resnetBlockShape cin cout) := by
  intro s t h
  simp only [resnetBlockShape, Option.bind_eq_some] at h
  obtain ⟨n1, hn1, h1, hh1, n2, hn2, h2, hh2, sc, hsc, hadd⟩ := h
  have ht : t = sc := by
    unfold addShape at hadd
    split at hadd
    · exact (Option.some.inj hadd).symm
    · exact absurd hadd (by simp)
  rw [ht]
  split at hsc
  · exact paddedConv2d_preservesB cout 1 0 1 s sc hsc
  · cases Option.some.inj hsc
    rfl

theorem preservesB_bind {f g : Shape → Option Shape} (hf : PreservesB f) (hg : PreservesB g) :
    PreservesB (fun s => (f s).bind g) := by
  intro s t h
  rcases Option.bind_eq_some.mp h with ⟨m, hm, hgm⟩
  exact (hg m t hgm).trans (hf s m hm)

theorem encoder_preservesB : PreservesB encoderShape := by
  unfold encoderShape
  repeat' apply preservesB_bind
  all_goals first
    | exact paddedConv2d_preservesB _ _ _ _
    | exact resnet_preservesB _ _
    | exact attention_preservesB _
    | exact groupNorm_preservesB
    | exact swishAct_preservesB
    | exact encSlice_preservesB

theorem decoderPostQuant_preservesB : PreservesB decoderPostQuantConvShape :=
  paddedConv2d_preservesB 4 1 0 1

theorem decoder_preservesB : PreservesB decoderShape := by
  unfold decoderShape
  repeat' apply preservesB_bind
  all_goals first
    | exact paddedConv2d_preservesB _ _ _ _
    | exact resnet_preservesB _ _
    | exact attention_preservesB _
    | exact groupNorm_preservesB
    | exact swishAct_preservesB
    | exact upSampling_preservesB

/-! Helper lemmas: value-level facts. -/

theorem sum_range_hw (H W : ℕ) (f : ℕ → ℝ) :
    ∑ j ∈ Finset.range (H * W), f j =
      ∑ y ∈ Finset.range H, ∑ x2 ∈ Finset.range W, f (y * W + x2) := by
  induction H with
  | zero => simp
  | succ H ih => rw [Nat.succ_mul, Finset.sum_range_add, ih, Finset.sum_range_succ]

theorem flatIdx_div (y x2 W : ℕ) (h : x2 < W) : (y * W + x2) / W = y := by
  rw [add_comm, mul_comm, Nat.add_mul_div_left x2 y (Nat.zero_lt_of_lt h),
    Nat.div_eq_of_lt h, zero_add]

theorem flatIdx_mod (y x2 W : ℕ) (h : x2 < W) : (y * W + x2) % W = x2 := by
  rw [add_comm, mul_comm, Nat.add_mul_mod_self_left, Nat.mod_eq_of_lt h]

theorem attnScores_rowsum (H W C : ℕ) (p : AttnP) (x : VTensor) (bi i : ℕ)
    (h : 0 < H * W) : ∑ j ∈ Finset.range (H * W), attnScores H W C p x bi i j = 1 := by
  unfold attnScores
  rw [← Finset.sum_div]
  apply div_self
  exact (Finset.sum_pos (fun j _ => Real.exp_pos _)
    (Finset.nonempty_range_iff.mpr h.ne')).ne'

theorem attnRawScores_eq (H W C : ℕ) (p : AttnP) (x : VTensor) (bi y x2 y2 x3 : ℕ)
    (hx2 : x2 < W) (hx3 : x3 < W) :
    attnRawScores H W C p x bi (y * W + x2) (y2 * W + x3) =
      (∑ c ∈ Finset.range C, attnQ H W C p x bi y x2 c * attnK H W C p x bi y2 x3 c) *
        (C : ℝ) ^ (-(1 / 2) : ℝ) := by
  unfold attnRawScores attnQflat attnKflat
  rw [flatIdx_div y x2 W hx2, flatIdx_mod y x2 W hx2, flatIdx_div y2 x3 W hx3,
    flatIdx_mod y2 x3 W hx3]

theorem attnSpatial_eq (H W C : ℕ) (p : AttnP) (x : VTensor) (bi y x2 c : ℕ) :
    attnSpatial H W C p x bi y x2 c =
      ∑ y2 ∈ Finset.range H, ∑ x3 ∈ Finset.range W,
        attnScores H W C p x bi (y * W + x2) (y2 * W + x3) *
          attnVproj H W C p x bi y2 x3 c := by
  unfold attnSpatial attnGather attnVflat
  rw [sum_range_hw]
  refine Finset.sum_congr rfl fun y2 _ => Finset.sum_congr rfl fun x3 hx3 => ?_
  rw [flatIdx_div y2 x3 W (Finset.mem_range.mp hx3),
    flatIdx_mod y2 x3 W (Finset.mem_range.mp hx3), mul_comm]

theorem paddedConv2dV_zero (k p st cin H W : ℕ) (cp : ConvP)
    (hw : ∀ a b2 c d : ℕ, cp.w a b2 c d = 0) (hb : ∀ o : ℕ, cp.b o = 0) (x : VTensor)
    (bi i j o : ℕ) : paddedConv2dV k p st cin H W cp x bi i j o = 0 := by
  simp [paddedConv2dV, hw, hb]

theorem mkResnetBlock_shortcut_iff (cin cout : ℕ) (n1 : GNP) (c1 : ConvP) (n2 : GNP)
    (c2 sc : ConvP) :
    (mkResnetBlock cin cout n1 c1 n2 c2 sc).ninShortcut = none ↔ cin = cout := by
  unfold mkResnetBlock
  by_cases h : cin = cout
  · simp [h]
  · simp [h]

theorem resnetBlockV_ident (cin cout H W : ℕ) (p : ResnetP) (x : VTensor)
    (hsc : p.ninShortcut = none)
    (hw : ∀ a b2 c d : ℕ, p.conv2.w a b2 c d = 0) (hb : ∀ o : ℕ, p.conv2.b o = 0)
    (bi i j c : ℕ) : resnetBlockV cin cout H W p x bi i j c = x bi i j c := by
  unfold resnetBlockV resnetBranchV applyNinShortcut
  rw [hsc]
  simp [paddedConv2dV_zero 3 1 1 cout H W p.conv2 hw hb]

/-! The claims. -/

/-- C1: on every non-degenerate `(B, H, W, 3)` input whose spatial dims are
divisible by 8, the Encoder produces a `(B, H/8, W/8, 4)` tensor; each
stride-2 3×3 convolution with padding 1 exactly halves even spatial dims; and
the final slicing step leaves 4 of the 8 channels. -/
theorem claim1_encoder_shape :
    (∀ B H W : ℕ, 8 ∣ H → 8 ∣ W → 0 < H → 0 < W →
      encoderShape ⟨B, H, W, 3⟩ = some ⟨B, H / 8, W / 8, 4⟩) ∧
    (∀ ch B H W C : ℕ, 2 ∣ H → 2 ∣ W → 0 < H → 0 < W →
      paddedConv2dShape ch 3 1 2 ⟨B, H, W, C⟩ = some ⟨B, H / 2, W / 2, ch⟩) ∧
    (∀ B H W : ℕ, encSliceScaleShape ⟨B, H, W, 8⟩ = some ⟨B, H, W, 4⟩) := by
  refine ⟨?_, ?_, ?_⟩
  · intro B H W hH hW h0H h0W
    obtain ⟨a, rfl⟩ := hH
    obtain ⟨b, rfl⟩ := hW
    have ea : 8 * a / 8 = a := by omega
    have eb : 8 * b / 8 = b := by omega
    rw [ea, eb]
    exact encoderShape_eval B a b (by omega) (by omega)
  · intro ch B H W C h2H h2W h0H h0W
    obtain ⟨a, rfl⟩ := h2H
    obtain ⟨b, rfl⟩ := h2W
    have ea : 2 * a / 2 = a := by omega
    have eb : 2 * b / 2 = b := by omega
    rw [ea, eb]
    exact conv3x3down_eval ch B (2 * a) (2 * b) C a b rfl rfl (by omega) (by omega)
  · intro B H W
    rfl

/-- Witness for C1 at the spec's own scenario `(1, 64, 64, 3) ↦ (1, 8, 8, 4)`. -/
theorem claim1_encoder_shape_w :
    encoderShape ⟨1, 64, 64, 3⟩ = some ⟨1, 8, 8, 4⟩ ∧
    paddedConv2dShape 128 3 1 2 ⟨1, 2, 2, 128⟩ = some ⟨1, 1, 1, 128⟩ ∧
    encSliceScaleShape ⟨1, 4, 4, 8⟩ = some ⟨1, 4, 4, 4⟩ :=
  ⟨claim1_encoder_shape.1 1 64 64 (by norm_num) (by norm_num) (by norm_num) (by norm_num),
   claim1_encoder_shape.2.1 128 1 2 2 128 (by norm_num) (by norm_num) (by norm_num)
     (by norm_num),
   claim1_encoder_shape.2.2 1 4 4⟩

/-- C2: on every non-degenerate `(B, H, W, 4)` latent, the Decoder produces a
`(B, 8H, 8W, 3)` tensor; each `UpSampling2D` doubles both spatial dims. -/
theorem claim2_decoder_shape :
    (∀ B H W : ℕ, 0 < H → 0 < W →
      decoderShape ⟨B, H, W, 4⟩ = some ⟨B, 8 * H, 8 * W, 3⟩) ∧
    (∀ B H W C : ℕ, upSampling2dShape ⟨B, H, W, C⟩ = some ⟨B, 2 * H, 2 * W, C⟩) :=
  ⟨fun B H W h0H h0W => decoderShape_eval B H W (by omega) (by omega),
   fun _ _ _ _ => rfl⟩

/-- Witness for C2 at `(1, 8, 8, 4) ↦ (1, 64, 64, 3)`. -/
theorem claim2_decoder_shape_w :
    decoderShape ⟨1, 8, 8, 4⟩ = some ⟨1, 64, 64, 3⟩ ∧
    upSampling2dShape ⟨1, 2, 3, 5⟩ = some ⟨1, 4, 6, 5⟩ :=
  ⟨claim2_decoder_shape.1 1 8 8 (by norm_num) (by norm_num),
   claim2_decoder_shape.2 1 2 3 5⟩

/-- C3: the attention block is single-head scaled dot-product attention over
spatial positions. (i) Whenever `AttentionBlock.call` accepts an input, its
output shape equals the input shape. (ii) After the softmax, each query
position's scores sum to 1 over all `H*W` key positions. (iii) The raw score
of query position `(y, x2)` against key position `(y2, x3)` is the channel dot
product of the 1×1-convolved query and key projections of the group-normalized
input, scaled by `C^(-1/2)`. (iv) The attended feature at `(y, x2)` — which is
then passed through the project-out 1×1 convolution and added to the original
pre-normalization input (the definition of `attentionBlockV`) — is the
score-weighted sum of the value projection over all spatial positions. -/
theorem claim3_attention :
    (∀ ch : ℕ, ∀ s t : Shape, attentionBlockShape ch s = some t → t = s) ∧
    (∀ H W C : ℕ, ∀ p : AttnP, ∀ x : VTensor, ∀ bi i : ℕ, 0 < H * W →
      ∑ j ∈ Finset.range (H * W), attnScores H W C p x bi i j = 1) ∧
    (∀ H W C : ℕ, ∀ p : AttnP, ∀ x : VTensor, ∀ bi y x2 y2 x3 : ℕ, x2 < W → x3 < W →
      attnRawScores H W C p x bi (y * W + x2) (y2 * W + x3) =
        (∑ c ∈ Finset.range C, attnQ H W C p x bi y x2 c * attnK H W C p x bi y2 x3 c) *
          (C : ℝ) ^ (-(1 / 2) : ℝ)) ∧
    (∀ H W C : ℕ, ∀ p : AttnP, ∀ x : VTensor, ∀ bi y x2 c : ℕ,
      attnSpatial H W C p x bi y x2 c =
        ∑ y2 ∈ Finset.range H, ∑ x3 ∈ Finset.range W,
          attnScores H W C p x bi (y * W + x2) (y2 * W + x3) *
            attnVproj H W C p x bi y2 x3 c) :=
  ⟨attentionBlockShape_out,
   fun H W C p x bi i h => attnScores_rowsum H W C p x bi i h,
   fun H W C p x bi y x2 y2 x3 hx2 hx3 => attnRawScores_eq H W C p x bi y x2 y2 x3 hx2 hx3,
   fun H W C p x bi y x2 c => attnSpatial_eq H W C p x bi y x2 c⟩

/-- Witness for C3 at concrete inputs. -/
theorem claim3_attention_w :
    ((⟨1, 1, 1, 32⟩ : Shape) = ⟨1, 1, 1, 32⟩) ∧
    (∑ j ∈ Finset.range (1 * 1), attnScores 1 1 1 zeroAttnP zeroVT 0 0 j = 1) ∧
    (attnRawScores 1 1 1 zeroAttnP zeroVT 0 (0 * 1 + 0) (0 * 1 + 0) =
      (∑ c ∈ Finset.range 1, attnQ 1 1 1 zeroAttnP zeroVT 0 0 0 c *
        attnK 1 1 1 zeroAttnP zeroVT 0 0 0 c) * ((1 : ℕ) : ℝ) ^ (-(1 / 2) : ℝ)) ∧
    (attnSpatial 1 1 1 zeroAttnP zeroVT 0 0 0 0 =
      ∑ y2 ∈ Finset.range 1, ∑ x3 ∈ Finset.range 1,
        attnScores 1 1 1 zeroAttnP zeroVT 0 (0 * 1 + 0) (y2 * 1 + x3) *
          attnVproj 1 1 1 zeroAttnP zeroVT 0 y2 x3 0) :=
  ⟨claim3_attention.1 32 ⟨1, 1, 1, 32⟩ ⟨1, 1, 1, 32⟩ (by decide),
   claim3_attention.2.1 1 1 1 zeroAttnP zeroVT 0 0 (by norm_num),
   claim3_attention.2.2.1 1 1 1 zeroAttnP zeroVT 0 0 0 0 0 (by norm_num) (by norm_num),
   claim3_attention.2.2.2 1 1 1 zeroAttnP zeroVT 0 0 0 0⟩

/-- C4: the resnet block's shortcut is chosen at construction time from the
declared channel counts alone: it is the identity exactly when
`in_channels = out_channels`, and a learned 1×1 convolution otherwise; the
identity shortcut really passes the input through unchanged; when the
shortcut is the identity and the second convolution is zeroed, the block's
output equals its input exactly; and the block's output is always
`shortcut(x) + branch(x)` with the branch being
norm → swish → 3×3 conv → norm → swish → 3×3 conv. -/
theorem claim4_resnet_shortcut :
    (∀ cin cout : ℕ, ∀ n1 : GNP, ∀ c1 : ConvP, ∀ n2 : GNP, ∀ c2 sc : ConvP,
      ((mkResnetBlock cin cout n1 c1 n2 c2 sc).ninShortcut = none ↔ cin = cout)) ∧
    (∀ cin H W : ℕ, ∀ x : VTensor, applyNinShortcut cin H W none x = x) ∧
    (∀ cin cout H W : ℕ, ∀ p : ResnetP, ∀ x : VTensor, p.ninShortcut = none →
      (∀ a b2 c d : ℕ, p.conv2.w a b2 c d = 0) → (∀ o : ℕ, p.conv2.b o = 0) →
      ∀ bi i j c : ℕ, resnetBlockV cin cout H W p x bi i j c = x bi i j c) ∧
    (∀ cin cout H W : ℕ, ∀ p : ResnetP, ∀ x : VTensor, ∀ bi i j c : ℕ,
      resnetBlockV cin cout H W p x bi i j c =
        applyNinShortcut cin H W p.ninShortcut x bi i j c +
          resnetBranchV cin cout H W p x bi i j c) :=
  ⟨mkResnetBlock_shortcut_iff,
   fun _ _ _ _ => rfl,
   fun cin cout H W p x hsc hw hb bi i j c =>
     resnetBlockV_ident cin cout H W p x hsc hw hb bi i j c,
   fun _ _ _ _ _ _ _ _ _ _ => rfl⟩

/-- Witness for C4: a zeroed `(64, 64)` block built by the constructor maps
the input through unchanged. -/
theorem claim4_resnet_shortcut_w :
    resnetBlockV 64 64 1 1 (mkResnetBlock 64 64 zeroGNP zeroConvP zeroGNP zeroConvP zeroConvP)
      zeroVT 0 0 0 0 = zeroVT 0 0 0 0 :=
  claim4_resnet_shortcut.2.2.1 64 64 1 1
    (mkResnetBlock 64 64 zeroGNP zeroConvP zeroGNP zeroConvP zeroConvP) zeroVT
    (by simp [mkResnetBlock]) (fun _ _ _ _ => rfl) (fun _ => rfl) 0 0 0 0

/-- C5: the Encoder's final Lambda returns the first 4 channels scaled by
`0.18215`, the Decoder's first Lambda scales by `1 / 0.18215`, and in exact
arithmetic composing the two recovers the first-4-channel slice exactly. -/
theorem claim5_lambda_constants :
    (∀ x : VTensor, ∀ bi h w2 c : ℕ, c < 4 →
      encoderOutLambdaV x bi h w2 c = 0.18215 * x bi h w2 c) ∧
    (∀ x : VTensor, ∀ bi h w2 c : ℕ,
      decoderInLambdaV (encoderOutLambdaV x) bi h w2 c = sliceFirst4V x bi h w2 c) := by
  constructor
  · intro x bi h w2 c hc
    unfold encoderOutLambdaV
    rw [if_pos hc, mul_comm]
  · intro x bi h w2 c
    unfold decoderInLambdaV encoderOutLambdaV sliceFirst4V
    by_cases hc : c < 4
    · rw [if_pos hc]
      have h18 : (0.18215 : ℝ) ≠ 0 := by norm_num
      field_simp
    · rw [if_neg hc]
      ring

/-- Witness for C5 at channel 2 of the zero tensor. -/
theorem claim5_lambda_constants_w :
    encoderOutLambdaV zeroVT 0 0 0 2 = 0.18215 * zeroVT 0 0 0 2 ∧
    decoderInLambdaV (encoderOutLambdaV zeroVT) 0 0 0 2 = sliceFirst4V zeroVT 0 0 0 2 :=
  ⟨claim5_lambda_constants.1 zeroVT 0 0 0 2 (by norm_num),
   claim5_lambda_constants.2 zeroVT 0 0 0 2⟩

/-- C6, amended: the Decoder's post-quant 1×1 convolution (line 82,
`PaddedConv2D(4, 1)`) keeps the latent at 4 channels; it is the subsequent
3×3 convolution (line 83) that maps to the 512-channel bottleneck width. -/
theorem claim6_postquant_shape (B H W : ℕ) (hH : 1 ≤ H) (hW : 1 ≤ W) :
    decoderPostQuantConvShape ⟨B, H, W, 4⟩ = some ⟨B, H, W, 4⟩ ∧
    paddedConv2dShape 512 3 1 1 ⟨B, H, W, 4⟩ = some ⟨B, H, W, 512⟩ :=
  ⟨conv1x1_eval 4 B H W 4 hH hW, conv3x3same_eval 512 B H W 4 hH hW⟩

/-- Witness for the amended C6. -/
theorem claim6_postquant_shape_w :
    decoderPostQuantConvShape ⟨1, 2, 3, 4⟩ = some ⟨1, 2, 3, 4⟩ ∧
    paddedConv2dShape 512 3 1 1 ⟨1, 2, 3, 4⟩ = some ⟨1, 2, 3, 512⟩ :=
  claim6_postquant_shape 1 2 3 (by norm_num) (by norm_num)

/-- C6 as stated is false: on a `(1, 8, 8, 4)` latent the post-quant 1×1
convolution produces 4 channels, not the claimed 512. -/
theorem claim6_postquant_counterexample :
    decoderPostQuantConvShape ⟨1, 8, 8, 4⟩ = some ⟨1, 8, 8, 4⟩ ∧
    decoderPostQuantConvShape ⟨1, 8, 8, 4⟩ ≠ some ⟨1, 8, 8, 512⟩ :=
  ⟨by decide, by decide⟩

/-- C7: the Decoder exactly undoes the Encoder's 8× downsampling — the round
trip preserves the shape of every non-degenerate `(B, H, W, 3)` input with
spatial dims divisible by 8. -/
theorem claim7_roundtrip_shape (B H W : ℕ) (hH : 8 ∣ H) (hW : 8 ∣ W) (h0H : 0 < H)
    (h0W : 0 < W) : roundTripShape ⟨B, H, W, 3⟩ = some ⟨B, H, W, 3⟩ := by
  obtain ⟨a, rfl⟩ := hH
  obtain ⟨b, rfl⟩ := hW
  unfold roundTripShape
  rw [encoderShape_eval B a b (by omega) (by omega), some_bind,
    decoderShape_eval B a b (by omega) (by omega)]

/-- Witness for C7. -/
theorem claim7_roundtrip_shape_w : roundTripShape ⟨2, 16, 8, 3⟩ = some ⟨2, 16, 8, 3⟩ :=
  claim7_roundtrip_shape 2 16 8 (by norm_num) (by norm_num) (by norm_num) (by norm_num)

/-- C8: `PaddedConv2D` follows valid-convolution arithmetic after zero
padding, and with padding 1, kernel 3, stride 1 it preserves the spatial
dimensions of every non-empty input. -/
theorem claim8_paddedConv_shape :
    (∀ ch k p st B H W C : ℕ, 0 < st → k ≤ H + 2 * p → k ≤ W + 2 * p →
      paddedConv2dShape ch k p st ⟨B, H, W, C⟩ =
        some ⟨B, (H + 2 * p - k) / st + 1, (W + 2 * p - k) / st + 1, ch⟩) ∧
    (∀ ch B H W C : ℕ, 1 ≤ H → 1 ≤ W →
      paddedConv2dShape ch 3 1 1 ⟨B, H, W, C⟩ = some ⟨B, H, W, ch⟩) :=
  ⟨fun ch k p st B H W C _ hH hW => paddedConv2dShape_eval ch k p st B H W C hH hW,
   fun ch B H W C hH hW => conv3x3same_eval ch B H W C hH hW⟩

/-- Witness for C8: a kernel-5, padding-2, stride-3 convolution on
`(1, 10, 7, 2)`, and the shape-preserving case on `(2, 5, 6, 7)`. -/
theorem claim8_paddedConv_shape_w :
    paddedConv2dShape 16 5 2 3 ⟨1, 10, 7, 2⟩ = some ⟨1, 4, 3, 16⟩ ∧
    paddedConv2dShape 9 3 1 1 ⟨2, 5, 6, 7⟩ = some ⟨2, 5, 6, 9⟩ :=
  ⟨claim8_paddedConv_shape.1 16 5 2 3 1 10 7 2 (by norm_num) (by norm_num) (by norm_num),
   claim8_paddedConv_shape.2 9 2 5 6 7 (by norm_num) (by norm_num)⟩

/-- C9: every operation of the module — `PaddedConv2D` at any configuration,
`AttentionBlock`, `ResnetBlock`, and the full `Encoder` and `Decoder`
pipelines — preserves the leading batch dimension whenever it accepts its
input. -/
theorem claim9_batch_preserved :
    (∀ ch k p st : ℕ, PreservesB (paddedConv2dShape ch k p st)) ∧
    (∀ ch : ℕ, PreservesB (attentionBlockShape ch)) ∧
    (∀ cin cout : ℕ, PreservesB (resnetBlockShape cin cout)) ∧
    PreservesB encoderShape ∧ PreservesB decoderShape :=
  ⟨paddedConv2d_preservesB, attention_preservesB, resnet_preservesB,
   encoder_preservesB, decoder_preservesB⟩

/-- Witness for C9: one concrete run of each of the five components. -/
theorem claim9_batch_preserved_w :
    (Shape.mk 1 1 1 4).B = (Shape.mk 1 1 1 8).B ∧
    (Shape.mk 1 2 2 32).B = (Shape.mk 1 2 2 32).B ∧
    (Shape.mk 3 1 1 64).B = (Shape.mk 3 1 1 32).B ∧
    (Shape.mk 1 1 1 4).B = (Shape.mk 1 8 8 3).B ∧
    (Shape.mk 2 8 8 3).B = (Shape.mk 2 1 1 4).B :=
  ⟨claim9_batch_preserved.1 4 1 0 1 ⟨1, 1, 1, 8⟩ ⟨1, 1, 1, 4⟩ (by decide),
   claim9_batch_preserved.2.1 32 ⟨1, 2, 2, 32⟩ ⟨1, 2, 2, 32⟩ (by decide),
   claim9_batch_preserved.2.2.1 32 64 ⟨3, 1, 1, 32⟩ ⟨3, 1, 1, 64⟩ (by decide),
   claim9_batch_preserved.2.2.2.1 ⟨1, 8, 8, 3⟩ ⟨1, 1, 1, 4⟩ (by decide),
   claim9_batch_preserved.2.2.2.2 ⟨2, 1, 1, 4⟩ ⟨2, 8, 8, 3⟩ (by decide)⟩

/-- C10: for fixed learned parameters the Encoder is a deterministic
function: equal inputs give equal outputs; the final Lambda reads only the
first 4 of the 8 channels, so its output is unchanged when channels 4-7 (the
would-be variance half) are changed; and the Encoder's output carries
nothing outside its 4 channels. -/
theorem claim10_encoder_deterministic :
    (∀ H W : ℕ, ∀ P : EncoderP, ∀ x y : VTensor, x = y →
      encoderV H W P x = encoderV H W P y) ∧
    (∀ x1 x2 : VTensor, (∀ bi h w2 c : ℕ, c < 4 → x1 bi h w2 c = x2 bi h w2 c) →
      ∀ bi h w2 c : ℕ, encoderOutLambdaV x1 bi h w2 c = encoderOutLambdaV x2 bi h w2 c) ∧
    (∀ H W : ℕ, ∀ P : EncoderP, ∀ x : VTensor, ∀ bi h w2 c : ℕ, 4 ≤ c →
      encoderV H W P x bi h w2 c = 0) := by
  refine ⟨fun H W P x y h => by rw [h], ?_, ?_⟩
  · intro x1 x2 hag bi h w2 c
    unfold encoderOutLambdaV
    by_cases hc : c < 4
    · rw [if_pos hc, if_pos hc, hag bi h w2 c hc]
    · rw [if_neg hc, if_neg hc]
  · intro H W P x bi h w2 c hc
    show encoderOutLambdaV _ bi h w2 c = 0
    unfold encoderOutLambdaV
    rw [if_neg (by omega), zero_mul]

/-- Witness for C10 on concrete zeroed parameters and tensors. -/
theorem claim10_encoder_deterministic_w :
    encoderV 8 8 zeroEncoderP zeroVT = encoderV 8 8 zeroEncoderP zeroVT ∧
    encoderOutLambdaV zeroVT 0 0 0 1 = encoderOutLambdaV zeroVT 0 0 0 1 ∧
    encoderV 8 8 zeroEncoderP zeroVT 0 0 0 5 = 0 :=
  ⟨claim10_encoder_deterministic.1 8 8 zeroEncoderP zeroVT zeroVT rfl,
   claim10_encoder_deterministic.2.1 zeroVT zeroVT (fun _ _ _ _ _ => rfl) 0 0 0 1,
   claim10_encoder_deterministic.2.2 8 8 zeroEncoderP zeroVT 0 0 0 5 (by norm_num)⟩

end AutoencoderKL
